import Mathlib

/-!
Verification development for the ShredX data-sanitization engine.

Shallow embedding of the Rust sources (src/sanitization.rs, src/certificate.rs,
src/devices/nvme/mod.rs, src/devices/usb/mod.rs, src/devices/sdcard/mod.rs).
Bytes are modelled as `Nat` values below 256; byte buffers as `List Nat`;
fallible operations return `Except IoError _`; the thread-local random number
generator is modelled as an explicit function parameter (`rnd draw idx` is the
byte at index `idx` of the `draw`-th buffer filled by `fill_random`).
-/

set_option maxRecDepth 10000

namespace ShredX

/-- Error kinds of `std::io::ErrorKind` that the embedded code paths use. -/
inductive ErrorKind where
  | Unsupported
  | NotFound
  | UnexpectedEof
  | AccessDenied
  | Other
deriving DecidableEq, Repr

/-- An `std::io::Error`: a kind together with its message. -/
structure IoError where
  kind : ErrorKind
  msg : String
deriving DecidableEq, Repr

/-- `SanitizationPattern` from src/sanitization.rs lines 20-27. -/
inductive SanitizationPattern where
  | Zeros
  | Ones
  | Random
  | DoD5220
  | Custom (b : Nat)
deriving DecidableEq, Repr

/-- `SanitizationMethod` from src/sanitization.rs lines 11-18. -/
inductive SanitizationMethod where
  | Clear
  | Purge
  | SecureErase
  | EnhancedSecureErase
  | ComprehensiveClean
deriving DecidableEq, Repr

/-- `OPTIMAL_BUFFER_SIZE` (src/sanitization.rs line 41): 16 MiB. -/
def OPTIMAL_BUFFER_SIZE : Nat := 16 * 1024 * 1024

/-- `SECTOR_SIZE` (src/sanitization.rs line 42): 4 KiB. -/
def SECTOR_SIZE : Nat := 4096

/-- `CHUNK_SIZE` (src/sanitization.rs line 44): 64 MiB. -/
def CHUNK_SIZE : Nat := 64 * 1024 * 1024

/-- `DataSanitizer::fill_random` (src/sanitization.rs lines 778-781): fills a
buffer of the given size from the thread rng; `rnd` is the rng stream for one
call, reduced mod 256 because the Rust buffer holds `u8` values. -/
def fill_random (rnd : Nat → Nat) (size : Nat) : List Nat :=
  (List.range size).map (fun i => rnd i % 256)

/-- `DataSanitizer::generate_pattern_buffer` (src/sanitization.rs lines
750-775).  The source allocates `vec![0u8; size]` and then overwrites it
according to the pattern; `rnd` models the rng consumed by the `Random` arm. -/
def generate_pattern_buffer (rnd : Nat → Nat) (pattern : SanitizationPattern)
    (size : Nat) : List Nat :=
  let buffer := List.replicate size 0
  match pattern with
  | .Zeros => buffer
  | .Ones => buffer.map (fun _ => 0xFF)
  | .Random => fill_random rnd size
  | .Custom b => buffer.map (fun _ => b)
  | .DoD5220 => buffer.mapIdx (fun i _ => if i % 2 = 0 then 0x55 else 0xAA)

/-- The pass/pattern list of `DataSanitizer::purge` (src/sanitization.rs lines
94-107): the three patterns handed to `sanitize_device`. -/
def purge_patterns : List SanitizationPattern :=
  [.Random, .Custom 0x55, .Custom 0xAA]

/-- The pass/pattern list of `DataSanitizer::enhanced_purge`
(src/sanitization.rs lines 110-127). -/
def enhanced_purge_patterns : List SanitizationPattern :=
  [.Random, .Custom 0x55, .Custom 0xAA, .Custom 0x92, .Custom 0x49,
   .Custom 0x24, .Random]

/-- The `purge_passes` list of `DataSanitizer::nist_purge_entire_disk`
(src/sanitization.rs lines 200-205): pass label and pattern for each pass. -/
def nist_purge_passes : List (String × SanitizationPattern) :=
  [("Pass 1/3: Random Pattern", .Random),
   ("Pass 2/3: Complement Pattern", .Ones),
   ("Pass 3/3: Final Random Pattern", .Random)]

/-- The pass executions performed by `sanitize_device_with_size`
(src/sanitization.rs lines 560-576): one pass per pattern, numbered from 1. -/
def sanitize_device_passes (patterns : List SanitizationPattern) :
    List (Nat × SanitizationPattern) :=
  patterns.enum.map (fun p => (p.1 + 1, p.2))

/-- The write loop of `DataSanitizer::overwrite_entire_device`
(src/sanitization.rs lines 849-903): repeatedly writes `buf[..write_size]`
with `write_size = min (buf.length) remaining` until `n` bytes are written.
The guard on `buf.length` is for totality: the source loop would not
terminate on an empty buffer, which no caller produces. -/
def writeLoop (buf : List Nat) (n : Nat) : List Nat :=
  if h : 0 < n ∧ 0 < buf.length then
    let ws := min buf.length n
    buf.take ws ++ writeLoop buf (n - ws)
  else []
termination_by n
decreasing_by omega

/-- Device bytes written by one pass of
`DataSanitizer::overwrite_entire_device` (src/sanitization.rs lines 825-912),
paired with the number of rng buffer fills the pass consumes.  The source
generates `pattern_buffer` once, before its write loop, and never regenerates
it inside the loop, so a `Random` pass consumes exactly one rng fill. -/
def overwrite_entire_device (rnd : Nat → Nat → Nat) (device_size : Nat)
    (pattern : SanitizationPattern) : List Nat × Nat :=
  let chunk_size := 64 * 1024 * 1024
  let pattern_buffer := generate_pattern_buffer (rnd 0) pattern chunk_size
  let draws := if pattern = .Random then 1 else 0
  (writeLoop pattern_buffer device_size, draws)

/-- The write loop of `DataSanitizer::sanitize_device_sequential`
(src/sanitization.rs lines 604-633).  At each iteration, if the pattern is
`Random` and `written % 16 MiB = 0` the buffer is refilled from the rng
(`draw` counts the fills consumed so far); then `min bufLen remaining` bytes
of the buffer are written.  The guard on `bufLen` is for totality only. -/
def seqWriteAux (rnd : Nat → Nat → Nat) (pattern : SanitizationPattern)
    (bufLen total written draw : Nat) (buf : List Nat) : List Nat :=
  if h : written < total ∧ 0 < bufLen then
    let regen := pattern = SanitizationPattern.Random ∧
      written % (16 * 1024 * 1024) = 0
    let buf2 := if regen then fill_random (rnd draw) bufLen else buf
    let draw2 := if regen then draw + 1 else draw
    let ws := min bufLen (total - written)
    buf2.take ws ++ seqWriteAux rnd pattern bufLen total (written + ws) draw2 buf2
  else []
termination_by total - written
decreasing_by omega

/-- Device bytes written by one pass of
`DataSanitizer::sanitize_device_sequential` (src/sanitization.rs lines
583-639): the buffer is `generate_pattern_buffer pattern aligned` with
`aligned = (buffer_size / SECTOR_SIZE) * SECTOR_SIZE`, then the write loop
runs.  rng draw 0 is the initial `generate_pattern_buffer`; refills inside
the loop use draws 1, 2, ... -/
def sanitize_device_sequential (rnd : Nat → Nat → Nat) (buffer_size : Nat)
    (pattern : SanitizationPattern) (device_size : Nat) : List Nat :=
  let aligned := (buffer_size / SECTOR_SIZE) * SECTOR_SIZE
  seqWriteAux rnd pattern aligned device_size 0 1
    (generate_pattern_buffer (rnd 0) pattern aligned)

/-- Device bytes after `DataSanitizer::clear` (src/sanitization.rs lines
84-91) on a `DataSanitizer::new()` sanitizer (buffer_size 16 MiB): a single
`sanitize_device` pass with the given pattern.  For device sizes above
`CHUNK_SIZE` the source takes `sanitize_device_parallel`, which simulates the
chunked writes and then performs the actual writing by calling
`sanitize_device_sequential` (src/sanitization.rs line 738), so the bytes on
the device equal the sequential pass in either branch. -/
def clear_content (rnd : Nat → Nat → Nat) (pattern : SanitizationPattern)
    (device_size : Nat) : List Nat :=
  sanitize_device_sequential rnd OPTIMAL_BUFFER_SIZE pattern device_size

/-- `DataSanitizer::verify_sanitization` (src/sanitization.rs lines 784-822),
as a function of the device content.  `check_size` defaults to
`min device_size 1MiB`; `read_exact` fails with `UnexpectedEof` when the
device holds fewer than `check_size` bytes; otherwise the sampled prefix is
tested against the expected pattern. -/
def verify_sanitization (content : List Nat)
    (expected_pattern : SanitizationPattern) (sample_size : Option Nat) :
    Except IoError Bool :=
  let device_size := content.length
  let check_size := sample_size.getD (min device_size (1024 * 1024))
  if check_size ≤ device_size then
    let buffer := content.take check_size
    match expected_pattern with
    | .Random =>
        let all_zeros := buffer.all (fun b => b == 0)
        let all_ones := buffer.all (fun b => b == 0xFF)
        .ok (!all_zeros && !all_ones)
    | .Zeros => .ok (buffer.all (fun b => b == 0))
    | .Ones => .ok (buffer.all (fun b => b == 0xFF))
    | .Custom expected => .ok (buffer.all (fun b => b == expected))
    | .DoD5220 =>
        .ok (buffer.enum.all (fun p =>
          if p.1 % 2 = 0 then p.2 == 0x55 else p.2 == 0xAA))
  else
    .error ⟨.UnexpectedEof, "failed to fill whole buffer"⟩

/-- Bool test for `slice::windows(n).any(|w| w == sig)`: `needle` occurs
contiguously inside `hay`. -/
def containsSlice (needle hay : List Nat) : Bool :=
  match hay with
  | [] => needle.isEmpty
  | _ :: t => needle.isPrefixOf hay || containsSlice needle t

/-- The `suspicious_signatures` table of
`DataSanitizer::contains_suspicious_patterns` (src/sanitization.rs lines
974-981), as byte lists. -/
def suspicious_signatures : List (List Nat) :=
  [[0x4E, 0x54, 0x46, 0x53],   -- "NTFS"
   [0x46, 0x41, 0x54, 0x33],   -- "FAT3"
   [0x65, 0x78, 0x46, 0x41],   -- "exFA"
   [0x52, 0x45, 0x46, 0x53],   -- "REFS"
   [0x4D, 0x42, 0x52, 0x00],   -- "MBR\0"
   [0x47, 0x50, 0x54, 0x00],   -- "GPT\0"
   [0x45, 0x46, 0x49, 0x00],   -- "EFI\0"
   [0x42, 0x4F, 0x4F, 0x54],   -- "BOOT"
   [0x53, 0x59, 0x53, 0x54],   -- "SYST"
   [0x57, 0x49, 0x4E, 0x44],   -- "WIND"
   [0x35, 0x35, 0x41, 0x41],   -- "55AA"
   [0x00, 0x00, 0x00, 0x00],
   [0xFF, 0xFF, 0xFF, 0xFF]]

/-- The longest-run computation of `contains_suspicious_patterns`
(src/sanitization.rs lines 1011-1021): `run` and `maxr` walk the buffer,
incrementing on equal neighbours. -/
def maxRunGo (prev : Nat) (l : List Nat) (run maxr : Nat) : Nat :=
  match l with
  | [] => maxr
  | x :: xs =>
      if x = prev then maxRunGo x xs (run + 1) (max maxr (run + 1))
      else maxRunGo x xs 1 maxr

/-- `max_run` as computed by `contains_suspicious_patterns`: both counters
start at 1 and the loop runs over indices `1..len`. -/
def maxRun (buffer : List Nat) : Nat :=
  match buffer with
  | [] => 1
  | b :: rest => maxRunGo b rest 1 1

/-- `DataSanitizer::contains_suspicious_patterns` (src/sanitization.rs lines
972-1025).  `is_ascii` is `b ≤ 0x7F`; `is_ascii_graphic` is
`0x21 ≤ b ≤ 0x7E`.  The source compares `f64` ratios
`ascii/len > 0.8` and `printable/len > 0.5`; for the 4 KiB buffers the code
uses these comparisons coincide with the exact rational inequalities
`5*ascii > 4*len` and `2*printable > len`, which is how they are modelled. -/
def contains_suspicious_patterns (buffer : List Nat) : Bool :=
  let ascii_chars := (buffer.filter (fun b => b ≤ 0x7F)).length
  let printable_chars :=
    (buffer.filter (fun b => ((0x21 ≤ b ∧ b ≤ 0x7E) ∨ b = 0x20) ∧ b ≤ 0x7F)).length
  if 5 * ascii_chars > 4 * buffer.length ∧ 2 * printable_chars > buffer.length
  then true
  else if suspicious_signatures.any (fun s => containsSlice s buffer) then true
  else maxRun buffer > 128

/-! ### Certificate generator (src/certificate.rs)

`DateTime<Utc>` fields are modelled by the RFC 3339 string chrono serializes
them to, and the `f64` field `average_speed_mbps` by the decimal token serde
serializes it to: within this development those values are only ever carried
and serialized, never computed with, so each is represented by its serialized
form.  `Uuid::new_v4()` and `Utc::now()` are nondeterministic inputs of
`generate_certificate` and appear as explicit parameters. -/

/-- `DeviceCertificateInfo` (src/certificate.rs lines 20-33). -/
structure DeviceCertificateInfo where
  device_path : String
  device_name : String
  device_type : String
  manufacturer : String
  model : String
  serial_number : String
  capacity : Nat
  sector_size : Nat
  supports_secure_erase : Bool
  supports_crypto_erase : Bool
  encryption_status : String
deriving DecidableEq, Repr

/-- `SanitizationInfo` (src/certificate.rs lines 35-47). -/
structure SanitizationInfo where
  method : String
  algorithm : String
  passes_completed : Nat
  total_bytes_processed : Nat
  start_time : String
  end_time : String
  duration_seconds : Nat
  average_speed_mbps : String
  success : Bool
  error_count : Nat
deriving DecidableEq, Repr

/-- `ComplianceInfo` (src/certificate.rs lines 49-57). -/
structure ComplianceInfo where
  standards_met : List String
  nist_compliant : Bool
  dod_compliant : Bool
  hipaa_compliant : Bool
  gdpr_compliant : Bool
  security_level : String
deriving DecidableEq, Repr

/-- `VerificationInfo` (src/certificate.rs lines 59-66). -/
structure VerificationInfo where
  verification_performed : Bool
  verification_method : String
  verification_passed : Bool
  residual_data_found : Bool
  verification_details : String
deriving DecidableEq, Repr

/-- `UserInfo` (src/certificate.rs lines 68-74). -/
structure UserInfo where
  username : String
  user_id : String
  organization : String
  role : String
deriving DecidableEq, Repr

/-- `SanitizationCertificate` (src/certificate.rs lines 8-18). -/
structure SanitizationCertificate where
  id : String
  device_info : DeviceCertificateInfo
  sanitization_info : SanitizationInfo
  compliance_info : ComplianceInfo
  verification_info : VerificationInfo
  timestamp : String
  user_info : UserInfo
  certificate_hash : String
deriving DecidableEq, Repr

/-- Rust `str::contains(needle)`: substring containment on the character
sequences. -/
def string_contains (hay needle : String) : Bool :=
  needle.data.isPrefixOf hay.data ||
    match h : hay.data with
    | [] => false
    | _ :: t => string_contains ⟨t⟩ needle
termination_by hay.data.length
decreasing_by simp [String.data, h]

/-- `CertificateGenerator::determine_compliance` (src/certificate.rs lines
134-183), translated clause by clause; the `standards_met` pushes happen in
source order. -/
def determine_compliance (si : SanitizationInfo) : ComplianceInfo :=
  let nist_cond := string_contains si.method "NIST" ||
    string_contains si.algorithm "Clear" || string_contains si.algorithm "Purge"
  let dod_cond := string_contains si.method "DoD" ||
    decide (si.passes_completed ≥ 3)
  let nist_compliant := if nist_cond then si.success else false
  let dod_compliant := if dod_cond then si.success else false
  let standards_met :=
    (if nist_cond then ["NIST SP 800-88"] else []) ++
    (if dod_cond then ["DoD 5220.22-M"] else []) ++
    (if string_contains si.algorithm "Secure Erase" then ["ATA Secure Erase"]
     else []) ++
    (if string_contains si.algorithm "Crypto Erase" then ["Cryptographic Erase"]
     else [])
  let security_level :=
    if nist_compliant && dod_compliant then "High Security"
    else if nist_compliant || dod_compliant then "Medium Security"
    else if si.success then "Basic Security"
    else "Incomplete"
  { standards_met := standards_met
    nist_compliant := nist_compliant
    dod_compliant := dod_compliant
    hipaa_compliant := si.success
    gdpr_compliant := si.success
    security_level := security_level }

/-! ### serde_json serialization of the certificate

`serde_json::to_string` emits the struct fields in declaration order with no
whitespace.  JSON `\x7b` and `\x7d` delimiters are written via `jObj`. -/

/-- Lowercase hex digit. -/
def hex_digit (n : Nat) : Char :=
  if n < 10 then Char.ofNat (48 + n) else Char.ofNat (87 + n)

/-- serde_json escaping of one character inside a JSON string: quote and
backslash get two-character escapes, control characters get their short
escape or `\u00XX`, everything else is copied verbatim. -/
def json_escape_char (c : Char) : String :=
  if c = Char.ofNat 34 then "\\\""
  else if c = Char.ofNat 92 then "\\\\"
  else if c.toNat < 0x20 then
    if c.toNat = 8 then "\\b"
    else if c.toNat = 9 then "\\t"
    else if c.toNat = 10 then "\\n"
    else if c.toNat = 12 then "\\f"
    else if c.toNat = 13 then "\\r"
    else String.mk [Char.ofNat 92, 'u', '0', '0',
      hex_digit (c.toNat / 16), hex_digit (c.toNat % 16)]
  else String.singleton c

/-- serde_json encoding of a string value (quotes plus escaped content). -/
def json_string (s : String) : String :=
  "\"" ++ s.data.foldl (fun acc c => acc ++ json_escape_char c) "" ++ "\""

/-- serde_json encoding of a bool. -/
def json_bool (b : Bool) : String := if b then "true" else "false"

/-- One `"key":value` member. -/
def jMember (k v : String) : String := json_string k ++ ":" ++ v

/-- A JSON object from its members, in declaration order. -/
def jObj (members : List String) : String :=
  "\x7b" ++ String.intercalate "," members ++ "\x7d"

/-- serde_json encoding of `Vec<String>`. -/
def json_string_array (l : List String) : String :=
  "[" ++ String.intercalate "," (l.map json_string) ++ "]"

/-- serde_json serialization of `DeviceCertificateInfo`. -/
def serialize_device_info (d : DeviceCertificateInfo) : String :=
  jObj [jMember "device_path" (json_string d.device_path),
        jMember "device_name" (json_string d.device_name),
        jMember "device_type" (json_string d.device_type),
        jMember "manufacturer" (json_string d.manufacturer),
        jMember "model" (json_string d.model),
        jMember "serial_number" (json_string d.serial_number),
        jMember "capacity" (toString d.capacity),
        jMember "sector_size" (toString d.sector_size),
        jMember "supports_secure_erase" (json_bool d.supports_secure_erase),
        jMember "supports_crypto_erase" (json_bool d.supports_crypto_erase),
        jMember "encryption_status" (json_string d.encryption_status)]

/-- serde_json serialization of `SanitizationInfo`; the datetime fields
serialize as JSON strings, the `f64` field as its bare decimal token. -/
def serialize_sanitization_info (s : SanitizationInfo) : String :=
  jObj [jMember "method" (json_string s.method),
        jMember "algorithm" (json_string s.algorithm),
        jMember "passes_completed" (toString s.passes_completed),
        jMember "total_bytes_processed" (toString s.total_bytes_processed),
        jMember "start_time" (json_string s.start_time),
        jMember "end_time" (json_string s.end_time),
        jMember "duration_seconds" (toString s.duration_seconds),
        jMember "average_speed_mbps" s.average_speed_mbps,
        jMember "success" (json_bool s.success),
        jMember "error_count" (toString s.error_count)]

/-- serde_json serialization of `ComplianceInfo`. -/
def serialize_compliance_info (c : ComplianceInfo) : String :=
  jObj [jMember "standards_met" (json_string_array c.standards_met),
        jMember "nist_compliant" (json_bool c.nist_compliant),
        jMember "dod_compliant" (json_bool c.dod_compliant),
        jMember "hipaa_compliant" (json_bool c.hipaa_compliant),
        jMember "gdpr_compliant" (json_bool c.gdpr_compliant),
        jMember "security_level" (json_string c.security_level)]

/-- serde_json serialization of `VerificationInfo`. -/
def serialize_verification_info (v : VerificationInfo) : String :=
  jObj [jMember "verification_performed" (json_bool v.verification_performed),
        jMember "verification_method" (json_string v.verification_method),
        jMember "verification_passed" (json_bool v.verification_passed),
        jMember "residual_data_found" (json_bool v.residual_data_found),
        jMember "verification_details" (json_string v.verification_details)]

/-- serde_json serialization of `UserInfo`. -/
def serialize_user_info (u : UserInfo) : String :=
  jObj [jMember "username" (json_string u.username),
        jMember "user_id" (json_string u.user_id),
        jMember "organization" (json_string u.organization),
        jMember "role" (json_string u.role)]

/-- `serde_json::to_string(&certificate)`: the full record in field order. -/
def serialize_certificate (c : SanitizationCertificate) : String :=
  jObj [jMember "id" (json_string c.id),
        jMember "device_info" (serialize_device_info c.device_info),
        jMember "sanitization_info"
          (serialize_sanitization_info c.sanitization_info),
        jMember "compliance_info" (serialize_compliance_info c.compliance_info),
        jMember "verification_info"
          (serialize_verification_info c.verification_info),
        jMember "timestamp" (json_string c.timestamp),
        jMember "user_info" (serialize_user_info c.user_info),
        jMember "certificate_hash" (json_string c.certificate_hash)]

/-- `str::as_bytes`: UTF-8 encoding of one character. -/
def utf8_encode_char (c : Char) : List Nat :=
  let n := c.toNat
  if n < 0x80 then [n]
  else if n < 0x800 then [0xC0 + n / 64, 0x80 + n % 64]
  else if n < 0x10000 then
    [0xE0 + n / 4096, 0x80 + (n / 64) % 64, 0x80 + n % 64]
  else
    [0xF0 + n / 262144, 0x80 + (n / 4096) % 64, 0x80 + (n / 64) % 64,
     0x80 + n % 64]

/-- `str::as_bytes`: UTF-8 encoding of a string. -/
def utf8_encode (s : String) : List Nat :=
  (s.data.map utf8_encode_char).flatten

/-! ### SHA-256 (the `sha2` crate behind `calculate_certificate_hash`)

Standard FIPS 180-4 SHA-256 over byte lists, with 32-bit words as `Nat`
values reduced mod `2^32`. -/

/-- `2^32`, the word modulus. -/
def M32 : Nat := 4294967296

/-- The eight initial hash words (FIPS 180-4, written in decimal). -/
def sha_h0 : List Nat :=
  [1779033703, 3144134277, 1013904242, 2773480762,
   1359893119, 2600822924, 528734635, 1541459225]

/-- The 64 round constants (FIPS 180-4, written in decimal). -/
def sha_k : List Nat :=
  [1116352408, 1899447441, 3049323471, 3921009573, 961987163,
   1508970993, 2453635748, 2870763221, 3624381080, 310598401,
   607225278, 1426881987, 1925078388, 2162078206, 2614888103,
   3248222580, 3835390401, 4022224774, 264347078, 604807628,
   770255983, 1249150122, 1555081692, 1996064986, 2554220882,
   2821834349, 2952996808, 3210313671, 3336571891, 3584528711,
   113926993, 338241895, 666307205, 773529912, 1294757372,
   1396182291, 1695183700, 1986661051, 2177026350, 2456956037,
   2730485921, 2820302411, 3259730800, 3345764771, 3516065817,
   3600352804, 4094571909, 275423344, 430227734, 506948616,
   659060556, 883997877, 958139571, 1322822218, 1537002063,
   1747873779, 1955562222, 2024104815, 2227730452, 2361852424,
   2428436474, 2756734187, 3204031479, 3329325298]

/-- Right rotation of a 32-bit word. -/
def rotr32 (n x : Nat) : Nat :=
  ((x >>> n) ||| (x <<< (32 - n))) % M32

/-- Big sigma-0. -/
def bsig0 (x : Nat) : Nat := rotr32 2 x ^^^ rotr32 13 x ^^^ rotr32 22 x

/-- Big sigma-1. -/
def bsig1 (x : Nat) : Nat := rotr32 6 x ^^^ rotr32 11 x ^^^ rotr32 25 x

/-- Small sigma-0. -/
def ssig0 (x : Nat) : Nat := rotr32 7 x ^^^ rotr32 18 x ^^^ (x >>> 3)

/-- Small sigma-1. -/
def ssig1 (x : Nat) : Nat := rotr32 17 x ^^^ rotr32 19 x ^^^ (x >>> 10)

/-- Choose. -/
def shaCh (x y z : Nat) : Nat := (x &&& y) ^^^ ((x ^^^ (M32 - 1)) &&& z)

/-- Majority. -/
def shaMaj (x y z : Nat) : Nat := (x &&& y) ^^^ (x &&& z) ^^^ (y &&& z)

/-- The message length as eight big-endian bytes (bit count). -/
def be64 (n : Nat) : List Nat :=
  (List.range 8).map (fun i => n / 2 ^ (8 * (7 - i)) % 256)

/-- FIPS 180-4 padding: append `0x80`, zeros to 56 mod 64, then the 64-bit
big-endian bit length. -/
def sha256_pad (msg : List Nat) : List Nat :=
  let L := msg.length
  let z := (64 + 56 - (L + 1) % 64) % 64
  msg ++ [0x80] ++ List.replicate z 0 ++ be64 (8 * L)

/-- Big-endian 32-bit words from a byte list. -/
def toWords : List Nat → List Nat
  | a :: b :: c :: d :: rest =>
      (a * 2 ^ 24 + b * 2 ^ 16 + c * 2 ^ 8 + d) :: toWords rest
  | _ => []

/-- Split into 64-byte blocks. -/
def chunks64 (l : List Nat) : List (List Nat) :=
  if h : l.length = 0 then []
  else l.take 64 :: chunks64 (l.drop 64)
termination_by l.length
decreasing_by simp [List.length_drop]; omega

/-- Extend the 16-word block to the 64-word message schedule (48 steps). -/
def extendSchedule : Nat → List Nat → List Nat
  | 0, ws => ws
  | n + 1, ws =>
      let t := (ssig1 (ws.getD (ws.length - 2) 0) + ws.getD (ws.length - 7) 0 +
        ssig0 (ws.getD (ws.length - 15) 0) + ws.getD (ws.length - 16) 0) % M32
      extendSchedule n (ws ++ [t])

/-- The working-variable state of the compression loop. -/
structure ShaState where
  a : Nat
  b : Nat
  c : Nat
  d : Nat
  e : Nat
  f : Nat
  g : Nat
  h : Nat
deriving Repr

/-- One compression round. -/
def shaRound (s : ShaState) (wk : Nat × Nat) : ShaState :=
  let t1 := (s.h + bsig1 s.e + shaCh s.e s.f s.g + wk.2 + wk.1) % M32
  let t2 := (bsig0 s.a + shaMaj s.a s.b s.c) % M32
  { a := (t1 + t2) % M32, b := s.a, c := s.b, d := s.c,
    e := (s.d + t1) % M32, f := s.e, g := s.f, h := s.g }

/-- Compress one 64-byte block into the running hash words. -/
def shaCompress (hw : List Nat) (block : List Nat) : List Nat :=
  let ws := extendSchedule 48 (toWords block)
  let s0 : ShaState :=
    { a := hw.getD 0 0, b := hw.getD 1 0, c := hw.getD 2 0, d := hw.getD 3 0,
      e := hw.getD 4 0, f := hw.getD 5 0, g := hw.getD 6 0, h := hw.getD 7 0 }
  let s := (ws.zip sha_k).foldl shaRound s0
  [(hw.getD 0 0 + s.a) % M32, (hw.getD 1 0 + s.b) % M32,
   (hw.getD 2 0 + s.c) % M32, (hw.getD 3 0 + s.d) % M32,
   (hw.getD 4 0 + s.e) % M32, (hw.getD 5 0 + s.f) % M32,
   (hw.getD 6 0 + s.g) % M32, (hw.getD 7 0 + s.h) % M32]

/-- SHA-256 digest of a byte list, as eight 32-bit hash words. -/
def sha256_words (msg : List Nat) : List Nat :=
  (chunks64 (sha256_pad msg)).foldl shaCompress sha_h0

/-- The digest as a single 256-bit natural number (big-endian word order). -/
def sha256_nat (msg : List Nat) : Nat :=
  (sha256_words msg).foldl (fun acc w => acc * M32 + w) 0

/-- The lowercase hex digest string, as `format!("\x7b:x\x7d",
hasher.finalize())` renders the digest: each of the 32 bytes as two
zero-padded lowercase hex digits, which is exactly the 256-bit digest value
as 64 zero-padded lowercase hex digits. -/
def sha256_hex (msg : List Nat) : String :=
  String.mk ((List.range 64).map (fun i =>
    hex_digit (sha256_nat msg / 16 ^ (63 - i) % 16)))

/-- `CertificateGenerator::calculate_certificate_hash` (src/certificate.rs
lines 185-194): clear the hash field, serialize to JSON, hash the UTF-8
bytes, render lowercase hex. -/
def calculate_certificate_hash (certificate : SanitizationCertificate) :
    String :=
  let temp_cert := { certificate with certificate_hash := "" }
  sha256_hex (utf8_encode (serialize_certificate temp_cert))

/-- `CertificateGenerator::generate_certificate` (src/certificate.rs lines
92-132).  `id` (`Uuid::new_v4`) and `timestamp` (`Utc::now`) are the
nondeterministic inputs made explicit. -/
def generate_certificate (id timestamp : String)
    (device_info : DeviceCertificateInfo)
    (sanitization_info : SanitizationInfo) (user_info : UserInfo) :
    SanitizationCertificate :=
  let compliance_info := determine_compliance sanitization_info
  let verification_info : VerificationInfo :=
    { verification_performed := true
      verification_method := "Post-sanitization sector scan"
      verification_passed := sanitization_info.success
      residual_data_found := false
      verification_details :=
        if sanitization_info.success then
          "No recoverable data detected after sanitization"
        else
          "Sanitization incomplete - verification could not be performed" }
  let certificate : SanitizationCertificate :=
    { id := id
      device_info := device_info
      sanitization_info := sanitization_info
      compliance_info := compliance_info
      verification_info := verification_info
      timestamp := timestamp
      user_info := user_info
      certificate_hash := "" }
  { certificate with
      certificate_hash := calculate_certificate_hash certificate }

/-! ### Device erasers (src/devices/nvme, src/devices/usb, src/devices/sdcard)

The eraser functions take the external effects they depend on as explicit
parameters: the outcome of shelling out to `nvme-cli` is a
`format_cmd : Option (Bool × String)` (`none` when the tool is absent,
otherwise exit success and stderr), and the device bytes available to
`verify_erasure` are a `content : List Nat`.  `WipingProgress` updates are
pure bookkeeping on a shared cell and do not influence any result modelled
here. -/

/-- Modelled from the spec: `DeviceType` is declared in `advanced_wiper.rs`,
which is not among the provided sources; variants follow spec section 3. -/
inductive DeviceType where
  | HDD
  | SSD
  | NVMe
  | USBDrive
  | SDCard
  | Unknown
deriving DecidableEq, Repr

/-- Modelled from the spec: `DeviceInfo` is declared in `advanced_wiper.rs`,
which is not among the provided sources; the fields follow spec section 3
and the construction site in `NvmeEraser::analyze_device`
(src/devices/nvme/mod.rs lines 446-459). -/
structure DeviceInfo where
  device_path : String
  device_type : DeviceType
  size_bytes : Nat
  sector_size : Nat
  supports_trim : Bool
  supports_secure_erase : Bool
  supports_enhanced_secure_erase : Bool
  supports_crypto_erase : Bool
  is_removable : Bool
  vendor : String
  model : String
  serial : String
deriving DecidableEq, Repr

/-- `NvmeEraser` (src/devices/nvme/mod.rs lines 15-19). -/
structure NvmeEraser where
  buffer_size : Nat
  verify_after_wipe : Bool
  namespace_id : Nat
deriving DecidableEq, Repr

/-- `NvmeEraser::new` (src/devices/nvme/mod.rs lines 22-28). -/
def NvmeEraser.new : NvmeEraser :=
  { buffer_size := 4 * 1024 * 1024, verify_after_wipe := true,
    namespace_id := 1 }

/-- `UsbEraser` (src/devices/usb/mod.rs lines 16-20). -/
structure UsbEraser where
  buffer_size : Nat
  verify_after_wipe : Bool
  conservative_approach : Bool
deriving DecidableEq, Repr

/-- `UsbEraser::new` (src/devices/usb/mod.rs lines 22-28). -/
def UsbEraser.new : UsbEraser :=
  { buffer_size := 512 * 1024, verify_after_wipe := true,
    conservative_approach := true }

/-- `SdCardEraser` (src/devices/sdcard/mod.rs lines 16-21). -/
structure SdCardEraser where
  buffer_size : Nat
  verify_after_wipe : Bool
  wear_leveling_aware : Bool
  max_write_cycles : Nat
deriving DecidableEq, Repr

/-- `SdCardEraser::new` (src/devices/sdcard/mod.rs lines 23-30). -/
def SdCardEraser.new : SdCardEraser :=
  { buffer_size := 256 * 1024, verify_after_wipe := true,
    wear_leveling_aware := true, max_write_cycles := 1000 }

/-- `NvmeEraser::execute_nvme_format_command` (src/devices/nvme/mod.rs lines
273-310): runs `nvme format`; `format_cmd` is `none` when spawning the tool
fails and otherwise carries the exit status and stderr.  `crypto_erase`
selects the `--ses` argument and does not affect the result shape. -/
def execute_nvme_format_command (crypto_erase : Bool)
    (format_cmd : Option (Bool × String)) : Except IoError Unit :=
  let _ := crypto_erase
  match format_cmd with
  | some (true, _) => .ok ()
  | some (false, stderr) =>
      .error ⟨.Other, "NVMe format failed: " ++ stderr⟩
  | none =>
      .error ⟨.NotFound,
        "nvme-cli tool not found. Cannot perform hardware secure erase."⟩

/-- `NvmeEraser::nvme_secure_erase` (src/devices/nvme/mod.rs lines 39-87).
Returns the io result together with whether the native format command was
reached (`false` means the function returned before issuing any command or
touching the device). -/
def nvme_secure_erase (e : NvmeEraser) (device_info : DeviceInfo)
    (format_cmd : Option (Bool × String)) : Except IoError Unit × Bool :=
  let _ := e
  if !device_info.supports_secure_erase then
    (.error ⟨.Unsupported, "NVMe Secure Erase not supported on this device"⟩,
     false)
  else
    (execute_nvme_format_command false format_cmd, true)

/-- `NvmeEraser::nvme_crypto_erase` (src/devices/nvme/mod.rs lines 90-134),
shaped like `nvme_secure_erase`. -/
def nvme_crypto_erase (e : NvmeEraser) (device_info : DeviceInfo)
    (format_cmd : Option (Bool × String)) : Except IoError Unit × Bool :=
  let _ := e
  if !device_info.supports_crypto_erase then
    (.error
      ⟨.Unsupported, "NVMe Cryptographic Erase not supported on this device"⟩,
     false)
  else
    (execute_nvme_format_command true format_cmd, true)

/-- `NvmeEraser::execute_deallocate_command` (src/devices/nvme/mod.rs lines
337-350): unconditionally returns `Unsupported`. -/
def execute_deallocate_command (e : NvmeEraser) (device_info : DeviceInfo)
    (start_block num_blocks : Nat) : Except IoError Unit :=
  let _ := (e, device_info, start_block, num_blocks)
  .error ⟨.Unsupported, "NVMe Deallocate not implemented for this platform"⟩

/-- `NvmeEraser::nvme_deallocate` (src/devices/nvme/mod.rs lines 202-248). -/
def nvme_deallocate (e : NvmeEraser) (device_info : DeviceInfo) :
    Except IoError Unit :=
  if !device_info.supports_trim then
    .error ⟨.Unsupported, "NVMe Deallocate not supported on this device"⟩
  else
    let total_blocks := device_info.size_bytes / device_info.sector_size
    execute_deallocate_command e device_info 0 total_blocks

/-- `SdCardEraser::filesystem_secure_delete` (src/devices/sdcard/mod.rs lines
130-143): unconditionally returns `Unsupported` with a pointer to the
block-level methods. -/
def filesystem_secure_delete (e : SdCardEraser) (device_info : DeviceInfo) :
    Except IoError Unit :=
  let _ := (e, device_info)
  .error ⟨.Unsupported,
    "Filesystem-level secure deletion not implemented. Please use block-level erasure (Random or Zeros)."⟩

/-- The shared read-and-check loop of the three `verify_erasure`
implementations: read up to `buffer_size` bytes at a time while fewer than
`sample_size` bytes have been read; stop at end of file; fail on any nonzero
byte. -/
def verifyReadLoop (buffer_size sample_size : Nat) (remaining : List Nat)
    (total_read : Nat) : Bool :=
  if total_read < sample_size then
    if h : (remaining.take buffer_size).length = 0 then true
    else if (remaining.take buffer_size).any (fun b => b ≠ 0) then false
    else
      verifyReadLoop buffer_size sample_size (remaining.drop buffer_size)
        (total_read + (remaining.take buffer_size).length)
  else true
termination_by remaining.length
decreasing_by
  simp only [List.length_take] at h
  simp only [List.length_drop]
  omega

/-- `NvmeEraser::verify_erasure` (src/devices/nvme/mod.rs lines 503-533):
immediately `Ok(true)` when `verify_after_wipe` is off; otherwise scans up to
the first 1 GiB of the device for nonzero bytes. -/
def NvmeEraser.verify_erasure (e : NvmeEraser) (device_info : DeviceInfo)
    (content : List Nat) : Except IoError Bool :=
  if !e.verify_after_wipe then .ok true
  else
    let sample_size := min device_info.size_bytes (1024 * 1024 * 1024)
    .ok (verifyReadLoop e.buffer_size sample_size content 0)

/-- `UsbEraser::verify_erasure` (src/devices/usb/mod.rs lines 484-514): as
for NVMe but sampling at most the first 50 MiB. -/
def UsbEraser.verify_erasure (e : UsbEraser) (device_info : DeviceInfo)
    (content : List Nat) : Except IoError Bool :=
  if !e.verify_after_wipe then .ok true
  else
    let sample_size := min device_info.size_bytes (50 * 1024 * 1024)
    .ok (verifyReadLoop e.buffer_size sample_size content 0)

/-- `SdCardEraser::verify_erasure` (src/devices/sdcard/mod.rs lines 497-530):
as for NVMe but sampling at most the first 10 MiB (the per-chunk sleep is
timing only). -/
def SdCardEraser.verify_erasure (e : SdCardEraser) (device_info : DeviceInfo)
    (content : List Nat) : Except IoError Bool :=
  if !e.verify_after_wipe then .ok true
  else
    let sample_size := min device_info.size_bytes (10 * 1024 * 1024)
    .ok (verifyReadLoop e.buffer_size sample_size content 0)

/-- A concrete `DeviceInfo` with every capability flag off, used to
instantiate hypothesis-bearing theorems. -/
def devInfo0 : DeviceInfo :=
  { device_path := "/dev/nvme0n1", device_type := .NVMe, size_bytes := 4096,
    sector_size := 512, supports_trim := false, supports_secure_erase := false,
    supports_enhanced_secure_erase := false, supports_crypto_erase := false,
    is_removable := false, vendor := "Unknown", model := "Unknown NVMe",
    serial := "Unknown" }

/-!  ## Theorems  -/

/-- `(if c then s else false) = (c && s)` for booleans. -/
theorem if_bool_and (c s : Bool) : (if c = true then s else false) = (c && s) := by
  cases c <;> simp

/-- C2 counterexample: the third pass of `DataSanitizer::purge` writes the
fixed byte 0xAA, not `Random`, so the claimed sequence
Random / complement / Random does not hold for `purge`. -/
theorem c2_counterexample :
    purge_patterns.getD 2 SanitizationPattern.Zeros =
      SanitizationPattern.Custom 0xAA ∧
    SanitizationPattern.Custom 0xAA ≠ SanitizationPattern.Random := by
  decide

/-- C2 (amended): both Purge implementations execute exactly 3 passes;
`nist_purge_entire_disk` uses Random, Ones (complement), Random, while
`DataSanitizer::purge` uses Random then the two fixed bytes 0x55 and 0xAA. -/
theorem c2_purge_pass_structure :
    (sanitize_device_passes purge_patterns).length = 3 ∧
    (sanitize_device_passes purge_patterns).map Prod.fst = [1, 2, 3] ∧
    (sanitize_device_passes purge_patterns).map Prod.snd =
      [SanitizationPattern.Random, SanitizationPattern.Custom 0x55,
       SanitizationPattern.Custom 0xAA] ∧
    nist_purge_passes.length = 3 ∧
    nist_purge_passes.map Prod.snd =
      [SanitizationPattern.Random, SanitizationPattern.Ones,
       SanitizationPattern.Random] := by
  refine ⟨rfl, rfl, rfl, rfl, rfl⟩

/-- C3: `generate_pattern_buffer` returns a buffer of exactly the requested
length for every pattern; `Zeros`, `Ones` and `Custom b` fill it with the
single byte 0x00, 0xFF and `b`; `DoD5220` puts 0x55 at even and 0xAA at odd
byte indices.  The function is total: there are no error conditions. -/
theorem c3_pattern_generator (rnd : Nat → Nat) (size b : Nat) :
    (∀ p : SanitizationPattern,
      (generate_pattern_buffer rnd p size).length = size) ∧
    generate_pattern_buffer rnd .Zeros size = List.replicate size 0 ∧
    generate_pattern_buffer rnd .Ones size = List.replicate size 0xFF ∧
    generate_pattern_buffer rnd (.Custom b) size = List.replicate size b ∧
    ∀ i : Fin size, (generate_pattern_buffer rnd .DoD5220 size)[i.val]? =
      some (if i.val % 2 = 0 then 0x55 else 0xAA) := by
  refine ⟨?_, rfl, ?_, ?_, ?_⟩
  · intro p
    cases p <;> simp [generate_pattern_buffer, fill_random]
  · simp [generate_pattern_buffer, List.map_replicate]
  · simp [generate_pattern_buffer, List.map_replicate]
  · intro i
    simp [generate_pattern_buffer, List.getElem?_mapIdx,
      List.getElem?_replicate, i.isLt]

/-- C5: when `DeviceInfo` reports no native secure-erase support the NVMe
secure-erase path returns the `Unsupported` io error without reaching the
external format command (second component `false`), and never `Ok`; the
crypto-erase path behaves the same for `supports_crypto_erase = false`. -/
theorem c5_native_erase_fails_closed (e : NvmeEraser) (d1 d2 : DeviceInfo)
    (cmd : Option (Bool × String))
    (h1 : d1.supports_secure_erase = false)
    (h2 : d2.supports_crypto_erase = false) :
    nvme_secure_erase e d1 cmd =
      (.error ⟨.Unsupported, "NVMe Secure Erase not supported on this device"⟩,
       false) ∧
    nvme_crypto_erase e d2 cmd =
      (.error
        ⟨.Unsupported, "NVMe Cryptographic Erase not supported on this device"⟩,
       false) := by
  constructor
  · simp [nvme_secure_erase, h1]
  · simp [nvme_crypto_erase, h2]

/-- Witness for C5 at a concrete capability-free device. -/
theorem c5_witness :
    devInfo0.supports_secure_erase = false ∧
    devInfo0.supports_crypto_erase = false ∧
    nvme_secure_erase NvmeEraser.new devInfo0 none =
      (.error ⟨.Unsupported, "NVMe Secure Erase not supported on this device"⟩,
       false) ∧
    nvme_crypto_erase NvmeEraser.new devInfo0 none =
      (.error
        ⟨.Unsupported, "NVMe Cryptographic Erase not supported on this device"⟩,
       false) :=
  ⟨rfl, rfl,
   (c5_native_erase_fails_closed NvmeEraser.new devInfo0 devInfo0 none rfl rfl).1,
   (c5_native_erase_fails_closed NvmeEraser.new devInfo0 devInfo0 none rfl rfl).2⟩

/-- C6: `nvme_deallocate` returns an `Unsupported` error on every device
(either the capability gate or `execute_deallocate_command` fires) and never
`Ok`; `filesystem_secure_delete` always returns the fixed `Unsupported` error
pointing the caller at the block-level methods. -/
theorem c6_non_sanitizing_ops_fail_closed (en : NvmeEraser) (es : SdCardEraser)
    (d : DeviceInfo) :
    (∃ m, nvme_deallocate en d = .error ⟨.Unsupported, m⟩) ∧
    (filesystem_secure_delete es d =
      .error ⟨.Unsupported,
        "Filesystem-level secure deletion not implemented. Please use block-level erasure (Random or Zeros)."⟩) := by
  constructor
  · cases h : d.supports_trim
    · exact ⟨"NVMe Deallocate not supported on this device",
        by simp [nvme_deallocate, h]⟩
    · exact ⟨"NVMe Deallocate not implemented for this platform",
        by simp [nvme_deallocate, execute_deallocate_command, h]⟩
  · rfl

/-- C8: the compliance flags of a generated certificate are pure functions of
the sanitization record: `nist_compliant` holds exactly on success with a
NIST-named method or Clear/Purge-named algorithm; `dod_compliant` exactly on
success with a DoD-named method or at least 3 completed passes; the HIPAA
and GDPR flags equal the success flag. -/
theorem c8_compliance_flags (si : SanitizationInfo) :
    (determine_compliance si).nist_compliant =
      (si.success && (string_contains si.method "NIST" ||
        string_contains si.algorithm "Clear" ||
        string_contains si.algorithm "Purge")) ∧
    (determine_compliance si).dod_compliant =
      (si.success && (string_contains si.method "DoD" ||
        decide (si.passes_completed ≥ 3))) ∧
    (determine_compliance si).hipaa_compliant = si.success ∧
    (determine_compliance si).gdpr_compliant = si.success := by
  refine ⟨?_, ?_, rfl, rfl⟩ <;>
    simp [determine_compliance, if_bool_and, Bool.and_comm]

/-- C10: for each of the three device erasers, when `verify_after_wipe` is
false `verify_erasure` returns `Ok(true)` for every device and every device
content, i.e. without the result depending on any data read from the
media. -/
theorem c10_verify_skipped_when_disabled (en : NvmeEraser) (eu : UsbEraser)
    (es : SdCardEraser) (dev : DeviceInfo) (content : List Nat)
    (hn : en.verify_after_wipe = false) (hu : eu.verify_after_wipe = false)
    (hs : es.verify_after_wipe = false) :
    en.verify_erasure dev content = .ok true ∧
    eu.verify_erasure dev content = .ok true ∧
    es.verify_erasure dev content = .ok true := by
  refine ⟨?_, ?_, ?_⟩
  · simp [NvmeEraser.verify_erasure, hn]
  · simp [UsbEraser.verify_erasure, hu]
  · simp [SdCardEraser.verify_erasure, hs]

/-- Witness for C10: erasers with the flag off report success on a device
whose content is entirely nonzero. -/
theorem c10_witness :
    ({ buffer_size := 4194304, verify_after_wipe := false, namespace_id := 1 }
        : NvmeEraser).verify_after_wipe = false ∧
    ({ buffer_size := 524288, verify_after_wipe := false,
       conservative_approach := true } : UsbEraser).verify_after_wipe = false ∧
    ({ buffer_size := 262144, verify_after_wipe := false,
       wear_leveling_aware := true, max_write_cycles := 1000 }
        : SdCardEraser).verify_after_wipe = false ∧
    (NvmeEraser.verify_erasure
      { buffer_size := 4194304, verify_after_wipe := false, namespace_id := 1 }
      devInfo0 [1, 2, 3] = .ok true ∧
     UsbEraser.verify_erasure
      { buffer_size := 524288, verify_after_wipe := false,
        conservative_approach := true } devInfo0 [1, 2, 3] = .ok true ∧
     SdCardEraser.verify_erasure
      { buffer_size := 262144, verify_after_wipe := false,
        wear_leveling_aware := true, max_write_cycles := 1000 }
      devInfo0 [1, 2, 3] = .ok true) :=
  ⟨rfl, rfl, rfl,
   c10_verify_skipped_when_disabled _ _ _ devInfo0 [1, 2, 3] rfl rfl rfl⟩

/-- C4 counterexample: a sample that begins with the "NTFS" filesystem
signature and continues with 200 printable 0x41 bytes (a run far longer than
128 of a single value, with printable ratio 1) is accepted by
`verify_sanitization` with expected pattern `Random`, because that function
only rejects all-zero and all-0xFF samples; the run/signature/printable
checks live in `contains_suspicious_patterns`, which does flag this
content. -/
theorem c4_counterexample :
    verify_sanitization
      ([0x4E, 0x54, 0x46, 0x53] ++ List.replicate 200 0x41) .Random (some 204)
      = .ok true ∧
    containsSlice [0x4E, 0x54, 0x46, 0x53]
      ([0x4E, 0x54, 0x46, 0x53] ++ List.replicate 200 0x41) = true ∧
    maxRun ([0x4E, 0x54, 0x46, 0x53] ++ List.replicate 200 0x41) = 200 ∧
    contains_suspicious_patterns
      ([0x4E, 0x54, 0x46, 0x53] ++ List.replicate 200 0x41) = true :=
  ⟨rfl, by decide, by decide, by decide⟩

/-- C4 (amended): with expected pattern `Random`, `verify_sanitization`
returns true exactly when the sampled content is not all-zero and not
all-0xFF; the long-run, signature and printable-ASCII heuristics are applied
only by `contains_suspicious_patterns` inside the separate
`verify_disk_sanitization` sampling routine. -/
theorem c4_random_verification (buf : List Nat) :
    verify_sanitization buf .Random (some buf.length) =
      .ok (!(buf.all (fun b => b == 0)) && !(buf.all (fun b => b == 0xFF))) := by
  simp [verify_sanitization, List.take_length]

/-- `writeLoop` over a constant buffer produces the constant list. -/
theorem writeLoop_replicate (m c : Nat) (hm : 0 < m) :
    ∀ n, writeLoop (List.replicate m c) n = List.replicate n c := by
  intro n
  induction n using Nat.strong_induction_on with
  | _ n ih =>
    rw [writeLoop]
    split
    · next hcond =>
      simp only [List.length_replicate] at hcond ⊢
      rw [List.take_replicate, ih (n - min m n) (by omega)]
      have h1 : min (min m n) m = min m n := by omega
      rw [h1, ← List.replicate_add]
      congr 1
      omega
    · next hcond =>
      simp only [List.length_replicate] at hcond
      have : n = 0 := by omega
      simp [this]

/-- Elements of `writeLoop buf n`: position `i < n` holds the buffer byte at
`i` mod the buffer length, i.e. the buffer tiles the written region. -/
theorem writeLoop_getElem (buf : List Nat) (hL : 0 < buf.length) :
    ∀ n i, i < n → (writeLoop buf n)[i]? = buf[i % buf.length]? := by
  intro n
  induction n using Nat.strong_induction_on with
  | _ n ih =>
    intro i hi
    rw [writeLoop, dif_pos ⟨by omega, hL⟩]
    simp only [List.getElem?_append, List.length_take]
    by_cases hiw : i < min buf.length n
    · have h1 : i < min (min buf.length n) buf.length := by omega
      rw [if_pos h1, List.getElem?_take, if_pos hiw,
        Nat.mod_eq_of_lt (by omega)]
    · have hbl : buf.length ≤ i := by omega
      have hbln : buf.length < n := by omega
      have hws : min buf.length n = buf.length := by omega
      rw [if_neg (by omega)]
      simp only [hws, Nat.min_self]
      have hidx : i - buf.length < n - buf.length := by omega
      have hrec := ih (n - buf.length) (by omega) (i - buf.length) hidx
      rw [hrec, Nat.mod_eq_sub_mod hbl]

/-- C7 (evidence for the code bug): a `Random` pass of
`overwrite_entire_device` over a 128 MiB device consumes exactly one rng
buffer fill and tiles the device with that single 64 MiB block, so the byte
at every offset equals the byte one chunk later — the buffer is never
regenerated, contradicting the required regeneration at least every
16 MiB. -/
theorem c7_single_repeated_random_block (rnd : Nat → Nat → Nat) (i : Nat)
    (hi : i + CHUNK_SIZE < 128 * 1024 * 1024) :
    ((overwrite_entire_device rnd (128 * 1024 * 1024) .Random).1)[i + CHUNK_SIZE]?
      = ((overwrite_entire_device rnd (128 * 1024 * 1024) .Random).1)[i]? ∧
    (overwrite_entire_device rnd (128 * 1024 * 1024) .Random).2 = 1 := by
  have hC : CHUNK_SIZE = 64 * 1024 * 1024 := rfl
  constructor
  · have hlen :
        (generate_pattern_buffer (rnd 0) .Random (64 * 1024 * 1024)).length
          = 64 * 1024 * 1024 := by
      simp [generate_pattern_buffer, fill_random]
    simp only [overwrite_entire_device]
    rw [writeLoop_getElem _ (by rw [hlen]; norm_num) _ _
        (by rw [hC] at hi; omega),
      writeLoop_getElem _ (by rw [hlen]; norm_num) _ _
        (by rw [hC] at hi; omega)]
    rw [hlen, hC, Nat.add_mod_right]
  · rfl

/-- Witness for C7 at offset 0: the first byte of the second 64 MiB chunk
equals the first byte of the device. -/
theorem c7_witness :
    0 + CHUNK_SIZE < 128 * 1024 * 1024 ∧
    (((overwrite_entire_device (fun _ _ => 7) (128 * 1024 * 1024)
        .Random).1)[0 + CHUNK_SIZE]?
      = ((overwrite_entire_device (fun _ _ => 7) (128 * 1024 * 1024)
        .Random).1)[0]? ∧
     (overwrite_entire_device (fun _ _ => 7) (128 * 1024 * 1024)
        .Random).2 = 1) :=
  ⟨by decide, c7_single_repeated_random_block (fun _ _ => 7) 0 (by decide)⟩

/-- `seqWriteAux` with a non-`Random` pattern and a constant buffer fills the
remaining region with the constant. -/
theorem seqWriteAux_replicate (rnd : Nat → Nat → Nat)
    (p : SanitizationPattern) (hp : p ≠ .Random) (m c : Nat) (hm : 0 < m) :
    ∀ k total written draw, total - written = k →
      seqWriteAux rnd p m total written draw (List.replicate m c) =
        List.replicate k c := by
  intro k
  induction k using Nat.strong_induction_on with
  | _ k ih =>
    intro total written draw hk
    rw [seqWriteAux]
    split
    · next hcond =>
      have hr : (p = SanitizationPattern.Random ∧
          written % (16 * 1024 * 1024) = 0) = False :=
        eq_false (fun hand => hp hand.1)
      simp only [hr, if_false]
      rw [List.take_replicate,
        ih (k - min m (total - written)) (by omega) total
          (written + min m (total - written)) draw (by omega)]
      have h1 : min (min m (total - written)) m = min m (total - written) := by
        omega
      rw [h1, ← List.replicate_add]
      congr 1
      omega
    · next hcond =>
      have : k = 0 := by omega
      simp [this]

/-- The device is all zeros after `clear` with the `Zeros` pattern. -/
theorem clear_content_zeros (rnd : Nat → Nat → Nat) (n : Nat) :
    clear_content rnd .Zeros n = List.replicate n 0 := by
  have h := seqWriteAux_replicate rnd .Zeros (by decide)
    ((OPTIMAL_BUFFER_SIZE / SECTOR_SIZE) * SECTOR_SIZE) 0 (by decide)
    n n 0 1 (by omega)
  simpa [clear_content, sanitize_device_sequential,
    generate_pattern_buffer] using h

/-- The device is all 0xFF after `clear` with the `Ones` pattern. -/
theorem clear_content_ones (rnd : Nat → Nat → Nat) (n : Nat) :
    clear_content rnd .Ones n = List.replicate n 0xFF := by
  have h := seqWriteAux_replicate rnd .Ones (by decide)
    ((OPTIMAL_BUFFER_SIZE / SECTOR_SIZE) * SECTOR_SIZE) 0xFF (by decide)
    n n 0 1 (by omega)
  simpa [clear_content, sanitize_device_sequential,
    generate_pattern_buffer, List.map_replicate] using h

/-- C9 counterexample: over the empty region (device size 0) writing `Ones`
and then verifying with expected pattern `Zeros` returns `true`, because the
zero-length sample passes the all-zeros check vacuously; so the claimed
round-trip inequality fails for the empty target region. -/
theorem c9_counterexample :
    verify_sanitization (clear_content (fun _ _ => 0) .Ones 0) .Zeros none =
      .ok true := by
  rw [clear_content_ones]
  simp [verify_sanitization]

/-- C9 (amended): over any nonempty target region, writing `Zeros` and
verifying with expected `Zeros` returns true, while writing `Ones` and
verifying with expected `Zeros` returns false. -/
theorem c9_write_verify_roundtrip (rnd rnd2 : Nat → Nat → Nat) (n : Nat)
    (hn : 0 < n) :
    verify_sanitization (clear_content rnd .Zeros n) .Zeros none = .ok true ∧
    verify_sanitization (clear_content rnd2 .Ones n) .Zeros none =
      .ok false := by
  rw [clear_content_zeros, clear_content_ones]
  constructor
  · simp [verify_sanitization, List.take_replicate, List.all_replicate]
  · simp only [verify_sanitization, List.length_replicate, Option.getD_none]
    rw [if_pos (Nat.min_le_left n (1024 * 1024))]
    rw [List.take_replicate, List.all_replicate]
    have h1 : ¬ (min (min n (1024 * 1024)) n = 0) := by omega
    simp [h1]
    omega

/-- Witness for C9 on a 5-byte region. -/
theorem c9_witness :
    0 < 5 ∧
    (verify_sanitization (clear_content (fun _ _ => 0) .Zeros 5) .Zeros none =
      .ok true ∧
     verify_sanitization (clear_content (fun _ _ => 0) .Ones 5) .Zeros none =
      .ok false) :=
  ⟨by decide,
   c9_write_verify_roundtrip (fun _ _ => 0) (fun _ _ => 0) 5 (by decide)⟩

/-- Supporting fact about the certificate generator (not a claim theorem):
every certificate returned by `generate_certificate` stores as
`certificate_hash` the SHA-256 hex digest of its own serialization with the
hash field cleared, and re-running `calculate_certificate_hash` on the
certificate (equivalently, on a copy with the hash field cleared) reproduces
the stored hash. -/
theorem generate_certificate_hash_spec (id timestamp : String)
    (device_info : DeviceCertificateInfo)
    (sanitization_info : SanitizationInfo) (user_info : UserInfo) :
    calculate_certificate_hash
        (generate_certificate id timestamp device_info sanitization_info
          user_info)
      = (generate_certificate id timestamp device_info sanitization_info
          user_info).certificate_hash ∧
    calculate_certificate_hash
        { generate_certificate id timestamp device_info sanitization_info
            user_info with certificate_hash := "" }
      = (generate_certificate id timestamp device_info sanitization_info
          user_info).certificate_hash ∧
    (generate_certificate id timestamp device_info sanitization_info
        user_info).certificate_hash
      = sha256_hex (utf8_encode (serialize_certificate
          { generate_certificate id timestamp device_info sanitization_info
              user_info with certificate_hash := "" })) :=
  ⟨rfl, rfl, rfl⟩

end ShredX
